import Mathlib

/-!
Verification development for the sandbox-server-ui terminal subsystem.

The definitions below are a shallow embedding of:
- the server-side execution bridge
  (SandboxService.executeCommandStreaming and the message serialization
  performed by TerminalWebSocketHandler.handleTextMessage),
- the client-side terminal state machine (Terminal.tsx),
- the client-side channel wrapper (TerminalWebSocket in the frontend api
  module), together with the browser WebSocket / setTimeout interactions
  it relies on.

JavaScript string primitives used by the source (trim, startsWith,
substring, split) are modelled as executable functions over the
underlying character lists, so that all concrete evaluations reduce in
the kernel.
-/

namespace SandboxUI

/-! ## JavaScript string primitives -/

/-- Whitespace characters removed by JavaScript String.prototype.trim
(restricted to the ASCII whitespace actually occurring in terminal input). -/
def isWsChar (c : Char) : Bool :=
  c = ' ' || c = '\t' || c = '\n' || c = '\r'

/-- Model of JS trim: drop whitespace from both ends. -/
def jsTrim (s : String) : String :=
  ⟨((s.data.dropWhile isWsChar).reverse.dropWhile isWsChar).reverse⟩

/-- Model of JS s.startsWith(pre). -/
def jsStartsWith (s pre : String) : Bool :=
  pre.data.isPrefixOf s.data

/-- Model of JS s.substring(n) for n within the string: drop n characters. -/
def jsDrop (s : String) (n : Nat) : String :=
  ⟨s.data.drop n⟩

/-- Split a character list at every slash, keeping empty pieces,
as JS split('/') does. -/
def splitSlashAux : List Char → List Char → List (List Char)
  | [], acc => [acc.reverse]
  | c :: rest, acc =>
    if c = '/' then acc.reverse :: splitSlashAux rest []
    else splitSlashAux rest (c :: acc)

/-- Model of JS s.split('/').filter(p => p): the nonempty slash-separated
segments of s. -/
def segments (s : String) : List String :=
  ((splitSlashAux s.data []).map (fun l => (⟨l⟩ : String))).filter (· ≠ "")

/-- Model of JS parts.join('/'). -/
def joinSlash : List String → String
  | [] => ""
  | [s] => s
  | s :: rest => s ++ "/" ++ joinSlash rest

/-! ## Server execution bridge (SandboxService.executeCommandStreaming,
serialized by TerminalWebSocketHandler) -/

/-- Events delivered by the sandbox execution capability to the handlers
registered in executeCommandStreaming.  Per the collaborator contract the
completion event reports an exit code and a duration; the streaming code
registers onStdout, onStderr, onExecutionComplete and onError handlers. -/
inductive ExecEvent
  | stdoutMsg (text : String)
  | stderrMsg (text : String)
  | errorEv (name value : String)
  | complete (reportedExitCode durationMs : Int)
deriving DecidableEq

/-- Outbound channel frames, as built by the Map.of payloads in
TerminalWebSocketHandler. -/
inductive WsMsg
  | stdout (data : String)
  | stderr (data : String)
  | exit (exitCode : Int)
  | error (message : String)
  | connected (sandboxId message : String)
  | pong
deriving DecidableEq

/-- Translation of the handler wiring in executeCommandStreaming: the
AtomicInteger exitCode starts at 0; onStdout and onStderr relay chunks;
onError sets exitCode to 1 and relays "name: value" on stderr;
onExecutionComplete emits an exit frame carrying the locally tracked
exitCode (the completion event's own fields are not read). -/
def streamMsgsFrom : Int → List ExecEvent → List WsMsg
  | _, [] => []
  | code, ExecEvent.stdoutMsg t :: rest => WsMsg.stdout t :: streamMsgsFrom code rest
  | code, ExecEvent.stderrMsg t :: rest => WsMsg.stderr t :: streamMsgsFrom code rest
  | _, ExecEvent.errorEv n v :: rest =>
      WsMsg.stderr (n ++ ": " ++ v) :: streamMsgsFrom 1 rest
  | code, ExecEvent.complete _ _ :: rest => WsMsg.exit code :: streamMsgsFrom code rest

/-- Messages produced by one streaming execution starting from the initial
exitCode 0. -/
def streamMsgs (evs : List ExecEvent) : List WsMsg :=
  streamMsgsFrom 0 evs

/-- Outcome of one call to executeCommandStreaming: either the capability
run returns normally after delivering the listed events, or an exception
is thrown after the listed events were delivered. -/
inductive ExecOutcome
  | completedRun (evs : List ExecEvent)
  | thrown (evs : List ExecEvent) (msg : String)
deriving DecidableEq

/-- Whole-call behaviour of executeCommandStreaming: on an exception the
catch block emits a stderr frame "Error: msg" followed by an exit frame
with code -1. -/
def bridgeExec : ExecOutcome → List WsMsg
  | ExecOutcome.completedRun evs => streamMsgs evs
  | ExecOutcome.thrown evs m =>
      streamMsgs evs ++ [WsMsg.stderr ("Error: " ++ m), WsMsg.exit (-1)]

/-- Whether any error event occurs in a list of capability events. -/
def errSeen (evs : List ExecEvent) : Bool :=
  evs.any (fun e => match e with | ExecEvent.errorEv _ _ => true | _ => false)

/-! ## Client terminal state machine (Terminal.tsx) -/

/-- Kinds of rendered output lines, matching the OutputLine type union in
Terminal.tsx. -/
inductive LineKind
  | stdout
  | stderr
  | info
  | input
deriving DecidableEq

/-- One rendered output line. -/
structure OutputLine where
  type : LineKind
  text : String
deriving DecidableEq

/-- The React state of the Terminal component: input buffer, output lines,
executing and connected flags, command history with its browse cursor
(-1 = not browsing, as in the source), and the display-only working
directory symbol. -/
structure TermState where
  input : String
  output : List OutputLine
  isExecuting : Bool
  isConnected : Bool
  history : List String
  historyIndex : Int
  currentDir : String
deriving DecidableEq

/-- Frames the client can send, as serialized by TerminalWebSocket.send
(type exec) and TerminalWebSocket.sendInput (type input). -/
inductive ClientMsg
  | exec (command : String)
  | inputData (data : String)
  | ping
deriving DecidableEq

/-- Inbound frames as dispatched by the switch in
TerminalWebSocket.connect's onmessage handler. -/
inductive ServerMsg
  | stdout (data : String)
  | stderr (data : String)
  | exit (exitCode : Int)
  | error (message : String)
  | connectedMsg
deriving DecidableEq

/-- Translation of the onStdout / onStderr / onExit / onError callbacks
registered by the Terminal component (Terminal.tsx lines 32-48), invoked
through the onmessage dispatch; a connected-type frame is ignored by the
dispatch (only logged). -/
def handleServerMsg (st : TermState) : ServerMsg → TermState
  | ServerMsg.stdout d =>
      { st with output := st.output ++ [⟨LineKind.stdout, d⟩] }
  | ServerMsg.stderr d =>
      { st with output := st.output ++ [⟨LineKind.stderr, d⟩], isExecuting := false }
  | ServerMsg.exit c =>
      { st with
        output := if c ≠ 0 then st.output ++ [⟨LineKind.info, "Exit code: " ++ toString c⟩]
                  else st.output,
        isExecuting := false }
  | ServerMsg.error m =>
      { st with output := st.output ++ [⟨LineKind.stderr, "Error: " ++ m⟩], isExecuting := false }
  | ServerMsg.connectedMsg => st

/-- Translation of the cd prompt update in executeCommand
(Terminal.tsx lines 107-122), applied to the already extracted and
trimmed argument. -/
def updateDir (prev dir : String) : String :=
  if dir = "~" ∨ dir = "$HOME" then "~"
  else if jsStartsWith dir "/" = true then dir
  else if dir = ".." then
    let parts := (segments prev).dropLast
    if parts.length > 0 then "/" ++ joinSlash parts else "~"
  else if prev = "~" then "~/" ++ dir else prev ++ "/" ++ dir

/-- Translation of executeCommand (Terminal.tsx lines 79-126).  Returns
the new state together with the frames handed to TerminalWebSocket.send. -/
def executeCommand (st : TermState) : TermState × List ClientMsg :=
  if jsTrim st.input = "" ∨ st.isExecuting = true ∨ st.isConnected = false then (st, [])
  else
    let cmd := jsTrim st.input
    let st1 : TermState :=
      { st with
        output := st.output ++ [⟨LineKind.input, st.currentDir ++ " $ " ++ cmd⟩],
        history := st.history.filter (· ≠ cmd) ++ [cmd],
        historyIndex := -1,
        input := "" }
    if cmd = "clear" ∨ cmd = "cls" then ({ st1 with output := [] }, [])
    else
      let st2 : TermState := { st1 with isExecuting := true }
      let st3 : TermState :=
        if jsStartsWith cmd "cd " = true then
          { st2 with currentDir := updateDir st2.currentDir (jsTrim (jsDrop cmd 3)) }
        else st2
      (st3, [ClientMsg.exec cmd])

/-- Model of the JS indexing history[i] followed by the fallback to the
empty string: out-of-range (including negative) indices give "". -/
def histGet (h : List String) (k : Int) : String :=
  if k < 0 then "" else h.getD k.toNat ""

/-- Keyboard events distinguished by handleKeyDown. -/
inductive Key
  | enter
  | arrowUp
  | arrowDown
  | ctrlC
  | ctrlL
  | other
deriving DecidableEq

/-- Translation of handleKeyDown (Terminal.tsx lines 128-159). -/
def handleKeyDown (st : TermState) : Key → TermState × List ClientMsg
  | Key.enter => executeCommand st
  | Key.arrowUp =>
      if st.history.length > 0 then
        let newIndex :=
          if st.historyIndex < (st.history.length : Int) - 1 then st.historyIndex + 1
          else st.historyIndex
        ({ st with
           historyIndex := newIndex,
           input := histGet st.history ((st.history.length : Int) - 1 - newIndex) }, [])
      else (st, [])
  | Key.arrowDown =>
      if st.historyIndex > 0 then
        let newIndex := st.historyIndex - 1
        ({ st with
           historyIndex := newIndex,
           input := histGet st.history ((st.history.length : Int) - 1 - newIndex) }, [])
      else if st.historyIndex = 0 then
        ({ st with historyIndex := -1, input := "" }, [])
      else (st, [])
  | Key.ctrlC =>
      if st.isExecuting = true then
        ({ st with output := st.output ++ [⟨LineKind.stderr, "^C"⟩], isExecuting := false }, [])
      else ({ st with input := "" }, [])
  | Key.ctrlL => ({ st with output := [] }, [])
  | Key.other => (st, [])

/-! ## Transport lifecycle (TerminalWebSocket over browser WebSocket,
plus the Terminal mount effect) -/

/-- Browser WebSocket readyState values reachable in this model. -/
inductive SockState
  | connecting
  | opened
  | closed
deriving DecidableEq

/-- One physical browser WebSocket: its readyState and the
TerminalWebSocket instance whose handlers were attached at creation. -/
structure Sock where
  state : SockState
  owner : Nat
deriving DecidableEq

/-- One TerminalWebSocket instance: its private ws field (a socket id, or
null). -/
structure Inst where
  wsField : Option Nat
deriving DecidableEq

/-- World for the connection-lifecycle model: created sockets (ids are
list positions), TerminalWebSocket instances, the queue of pending
deferred-close tasks scheduled by disconnect (by instance id), and the
number of times the component's onConnected callback ran — each run
appends the Connected-to-sandbox info banner block exactly once. -/
structure World where
  socks : List Sock
  insts : List Inst
  timeouts : List Nat
  banners : Nat
deriving DecidableEq

/-- Replace the element at an index, leaving other positions unchanged. -/
def modifyAt {α : Type} : List α → Nat → (α → α) → List α
  | [], _, _ => []
  | a :: l, 0, f => f a :: l
  | a :: l, n + 1, f => a :: modifyAt l n f

/-- Read the ws field of instance k (instances referenced by traces always
exist; the default is never hit on the traces considered). -/
def wsFieldOf (w : World) (k : Nat) : Option Nat :=
  (w.insts.getD k ⟨none⟩).wsField

/-- Read a socket's readyState. -/
def sockState (w : World) (s : Nat) : SockState :=
  (w.socks.getD s ⟨SockState.closed, 0⟩).state

/-- Assign the ws field of instance k. -/
def setWs (w : World) (k : Nat) (v : Option Nat) : World :=
  { w with insts := modifyAt w.insts k (fun _ => ⟨v⟩) }

/-- Close a socket. -/
def closeSock (w : World) (s : Nat) : World :=
  { w with socks := modifyAt w.socks s (fun sk => { sk with state := SockState.closed }) }

/-- Translation of TerminalWebSocket.disconnect: null ws is ignored; a
CONNECTING socket only schedules a deferred close task and returns with
ws still set; an OPEN socket is closed and ws nulled; otherwise ws is
nulled without closing. -/
def wsDisconnect (w : World) (k : Nat) : World :=
  match wsFieldOf w k with
  | none => w
  | some s =>
    match sockState w s with
    | SockState.connecting => { w with timeouts := w.timeouts ++ [k] }
    | SockState.opened => setWs (closeSock w s) k none
    | SockState.closed => setWs w k none

/-- Translation of TerminalWebSocket.connect: if ws is set, call
disconnect first; then create a fresh CONNECTING socket with this
instance's handlers attached and store it in ws. -/
def wsConnect (w : World) (k : Nat) : World :=
  let w1 := match wsFieldOf w k with
            | some _ => wsDisconnect w k
            | none => w
  let sid := w1.socks.length
  setWs { w1 with socks := w1.socks ++ [⟨SockState.connecting, k⟩] } k (some sid)

/-- Body of the deferred task scheduled by disconnect: close this.ws if it
is now OPEN, then null it — note this.ws may by now refer to a newer
socket of the same instance. -/
def wsTimeoutBody (w : World) (k : Nat) : World :=
  match wsFieldOf w k with
  | none => w
  | some s =>
    let w1 := if sockState w s = SockState.opened then closeSock w s else w
    setWs w1 k none

/-- Fire the oldest pending deferred-close task. -/
def stepTimeout (w : World) : World :=
  match w.timeouts with
  | [] => w
  | k :: rest => wsTimeoutBody { w with timeouts := rest } k

/-- Completion of a socket's handshake: a CONNECTING socket becomes OPEN
and its onopen handler runs, which invokes the owning instance's
onConnected callback — in Terminal.tsx this appends the connection
banner block to the output. -/
def sockOpenEv (w : World) (s : Nat) : World :=
  if sockState w s = SockState.connecting then
    { w with
      socks := modifyAt w.socks s (fun sk => { sk with state := SockState.opened }),
      banners := w.banners + 1 }
  else w

/-- Scheduler-visible events of the connection-lifecycle model. -/
inductive WsStep
  | connect (k : Nat)
  | disconnect (k : Nat)
  | timeout
  | sockOpen (s : Nat)
deriving DecidableEq

/-- Run a list of lifecycle events. -/
def wsRun (w : World) : List WsStep → World
  | [] => w
  | WsStep.connect k :: r => wsRun (wsConnect w k) r
  | WsStep.disconnect k :: r => wsRun (wsDisconnect w k) r
  | WsStep.timeout :: r => wsRun (stepTimeout w) r
  | WsStep.sockOpen s :: r => wsRun (sockOpenEv w s) r

/-- Initial world with n freshly constructed TerminalWebSocket instances
(construction only stores callbacks and has no other effect). -/
def initWorld (n : Nat) : World :=
  ⟨[], List.replicate n ⟨none⟩, [], 0⟩

/-- Modelled from the claim's words for C5: pop one path segment from the
current symbol, falling back to "~" if nothing remains; an absolute
symbol keeps its leading slash. -/
def specPop (prev : String) : String :=
  match (segments prev).dropLast with
  | [] => "~"
  | ps => (if jsStartsWith prev "/" = true then "/" else "") ++ joinSlash ps

/-- History-Up transition on the component state. -/
def navUp (st : TermState) : TermState :=
  (handleKeyDown st Key.arrowUp).1

/-- History-Down transition on the component state. -/
def navDown (st : TermState) : TermState :=
  (handleKeyDown st Key.arrowDown).1

/-! ## Helper lemmas -/

theorem streamMsgsFrom_append_complete (evs : List ExecEvent) (code c d : Int) :
    streamMsgsFrom code (evs ++ [ExecEvent.complete c d]) =
      streamMsgsFrom code evs ++ [WsMsg.exit (if errSeen evs = true then 1 else code)] := by
  induction evs generalizing code with
  | nil => simp [streamMsgsFrom, errSeen]
  | cons e rest ih =>
    cases e <;> simp [streamMsgsFrom, errSeen, ih, List.any_cons]

theorem error_not_in_streamMsgsFrom (evs : List ExecEvent) (code : Int) (s : String) :
    WsMsg.error s ∉ streamMsgsFrom code evs := by
  induction evs generalizing code with
  | nil => simp [streamMsgsFrom]
  | cons e rest ih =>
    cases e <;> simp [streamMsgsFrom, ih]

theorem startsWith_cd_ne_empty (s : String) (h : jsStartsWith s "cd " = true) : s ≠ "" := by
  rintro rfl
  exact absurd h (by decide)

theorem startsWith_cd_ne_clear (s : String) (h : jsStartsWith s "cd " = true) :
    s ≠ "clear" ∧ s ≠ "cls" := by
  constructor <;> rintro rfl <;> exact absurd h (by decide)

theorem count_filter_ne_self (a : String) (l : List String) :
    (l.filter (· ≠ a)).count a = 0 := by
  refine List.count_eq_zero.mpr (fun hmem => ?_)
  have := List.of_mem_filter hmem
  simp at this

theorem filter_ne_append_self (a : String) (l : List String) :
    ((l.filter (· ≠ a)) ++ [a]).filter (· ≠ a) = l.filter (· ≠ a) := by
  rw [List.filter_append, List.filter_filter]
  simp

/-! ## Claim theorems -/

/-- C1 (counterexample): when the capability's completion event reports
exit code 7, executeCommandStreaming serializes an exit frame carrying 0
(the locally tracked code), not the reported 7; the claimed equality with
the reported exit code fails at this input. -/
theorem C1_counterexample :
    bridgeExec (ExecOutcome.completedRun [ExecEvent.complete 7 5]) = [WsMsg.exit 0] ∧
    WsMsg.exit 0 ≠ WsMsg.exit 7 ∧
    bridgeExec (ExecOutcome.thrown [] "boom") =
      [WsMsg.stderr "Error: boom", WsMsg.exit (-1)] := by
  decide

/-- C1 (amended): every stdout/stderr chunk delivered by the capability is
relayed as a stdout/stderr frame in order, and an error event is relayed
as a stderr frame "name: value"; on completion the bridge serializes an
exit frame whose code is 1 if an error event occurred earlier and 0
otherwise, ignoring the exit code reported by the completion event; on
failure (an exception while invoking the capability) it serializes a
stderr frame "Error: reason" followed by an exit frame with code -1, and
no error-type frame is ever emitted by the bridge. -/
theorem C1_amended (evs : List ExecEvent) (code c d : Int) (t n v m s : String) :
    streamMsgsFrom code (ExecEvent.stdoutMsg t :: evs) =
      WsMsg.stdout t :: streamMsgsFrom code evs ∧
    streamMsgsFrom code (ExecEvent.stderrMsg t :: evs) =
      WsMsg.stderr t :: streamMsgsFrom code evs ∧
    streamMsgsFrom code (ExecEvent.errorEv n v :: evs) =
      WsMsg.stderr (n ++ ": " ++ v) :: streamMsgsFrom 1 evs ∧
    streamMsgs (evs ++ [ExecEvent.complete c d]) =
      streamMsgs evs ++ [WsMsg.exit (if errSeen evs = true then 1 else 0)] ∧
    bridgeExec (ExecOutcome.thrown evs m) =
      streamMsgs evs ++ [WsMsg.stderr ("Error: " ++ m), WsMsg.exit (-1)] ∧
    WsMsg.error s ∉ bridgeExec (ExecOutcome.completedRun evs) ∧
    WsMsg.error s ∉ streamMsgs evs := by
  refine ⟨rfl, rfl, rfl, streamMsgsFrom_append_complete evs 0 c d, rfl, ?_, ?_⟩
  · exact error_not_in_streamMsgsFrom evs 0 s
  · exact error_not_in_streamMsgsFrom evs 0 s

/-- C2 (code behaviour at the failing input): under a double rapid
mount — connect, effect cleanup disconnect while the socket is still
CONNECTING, re-mount connect — with both physical handshakes eventually
completing, the connection banner block is appended twice, not once;
this holds whether the deferred-close task fires before or after the
first handshake completes, because no session-scoped already-announced
flag exists. -/
theorem C2_double_mount_two_banners :
    (wsRun (initWorld 2) [WsStep.connect 0, WsStep.disconnect 0, WsStep.connect 1,
      WsStep.sockOpen 0, WsStep.sockOpen 1]).banners = 2 ∧
    (wsRun (initWorld 2) [WsStep.connect 0, WsStep.disconnect 0, WsStep.connect 1,
      WsStep.timeout, WsStep.sockOpen 0, WsStep.sockOpen 1]).banners = 2 := by
  decide

/-- C3 (code behaviour at the failing input): a second connect() while the
first socket is still CONNECTING creates the new socket without closing
the prior one — immediately afterwards both sockets exist unclosed; if
both handshakes then complete, two physical connections are
simultaneously open; when the deferred-close task scheduled by the
teardown fires, it closes the NEW socket (this.ws now aliases it) while
the old socket stays open forever (leaked). -/
theorem C3_second_connect_keeps_prior_socket :
    (sockState (wsRun (initWorld 1) [WsStep.connect 0, WsStep.connect 0]) 0 =
        SockState.connecting ∧
      sockState (wsRun (initWorld 1) [WsStep.connect 0, WsStep.connect 0]) 1 =
        SockState.connecting) ∧
    (sockState (wsRun (initWorld 1) [WsStep.connect 0, WsStep.connect 0,
        WsStep.sockOpen 0, WsStep.sockOpen 1]) 0 = SockState.opened ∧
      sockState (wsRun (initWorld 1) [WsStep.connect 0, WsStep.connect 0,
        WsStep.sockOpen 0, WsStep.sockOpen 1]) 1 = SockState.opened) ∧
    (sockState (wsRun (initWorld 1) [WsStep.connect 0, WsStep.connect 0,
        WsStep.sockOpen 0, WsStep.sockOpen 1, WsStep.timeout]) 0 = SockState.opened ∧
      sockState (wsRun (initWorld 1) [WsStep.connect 0, WsStep.connect 0,
        WsStep.sockOpen 0, WsStep.sockOpen 1, WsStep.timeout]) 1 = SockState.closed) := by
  decide

/-- C4: while Executing, a stdout frame appends a stdout line and leaves
Executing unchanged; a stderr frame appends a stderr line and exits
Executing; an exit frame with nonzero code appends an info line
"Exit code: N" and exits Executing; an exit frame with code 0 appends no
line but exits Executing; an error frame appends a stderr-kind line and
exits Executing. -/
theorem C4_server_message_handling (st : TermState) (h : st.isExecuting = true)
    (d m : String) (c : Int) (hc : c ≠ 0) :
    (handleServerMsg st (ServerMsg.stdout d) =
        { st with output := st.output ++ [⟨LineKind.stdout, d⟩] } ∧
      (handleServerMsg st (ServerMsg.stdout d)).isExecuting = true) ∧
    handleServerMsg st (ServerMsg.stderr d) =
      { st with output := st.output ++ [⟨LineKind.stderr, d⟩], isExecuting := false } ∧
    handleServerMsg st (ServerMsg.exit c) =
      { st with
        output := st.output ++ [⟨LineKind.info, "Exit code: " ++ toString c⟩],
        isExecuting := false } ∧
    handleServerMsg st (ServerMsg.exit 0) = { st with isExecuting := false } ∧
    handleServerMsg st (ServerMsg.error m) =
      { st with
        output := st.output ++ [⟨LineKind.stderr, "Error: " ++ m⟩],
        isExecuting := false } := by
  refine ⟨⟨rfl, by simp [handleServerMsg, h]⟩, rfl, ?_, ?_, rfl⟩
  · simp [handleServerMsg, hc]
  · simp [handleServerMsg]

/-- C4 (witness): the handling evaluated on a concrete executing state. -/
theorem C4_witness :
    (handleServerMsg (⟨"", [], true, true, [], -1, "~"⟩ : TermState) (ServerMsg.stdout "out") =
        (⟨"", [⟨LineKind.stdout, "out"⟩], true, true, [], -1, "~"⟩ : TermState) ∧
      (handleServerMsg (⟨"", [], true, true, [], -1, "~"⟩ : TermState)
          (ServerMsg.stdout "out")).isExecuting = true) ∧
    handleServerMsg (⟨"", [], true, true, [], -1, "~"⟩ : TermState) (ServerMsg.stderr "out") =
      (⟨"", [⟨LineKind.stderr, "out"⟩], false, true, [], -1, "~"⟩ : TermState) ∧
    handleServerMsg (⟨"", [], true, true, [], -1, "~"⟩ : TermState) (ServerMsg.exit 2) =
      (⟨"", [⟨LineKind.info, "Exit code: " ++ toString (2 : Int)⟩], false, true, [], -1, "~"⟩ :
        TermState) ∧
    handleServerMsg (⟨"", [], true, true, [], -1, "~"⟩ : TermState) (ServerMsg.exit 0) =
      (⟨"", [], false, true, [], -1, "~"⟩ : TermState) ∧
    handleServerMsg (⟨"", [], true, true, [], -1, "~"⟩ : TermState) (ServerMsg.error "bad") =
      (⟨"", [⟨LineKind.stderr, "Error: " ++ "bad"⟩], false, true, [], -1, "~"⟩ : TermState) :=
  C4_server_message_handling ⟨"", [], true, true, [], -1, "~"⟩ rfl "out" "bad" 2 (by decide)

/-- C8: submit is a no-op — state unchanged and no frame sent — whenever
the trimmed input is blank, a command is already executing, or the
terminal is not connected. -/
theorem C8_submit_noop (st : TermState)
    (h : jsTrim st.input = "" ∨ st.isExecuting = true ∨ st.isConnected = false) :
    executeCommand st = (st, []) := by
  unfold executeCommand
  rw [if_pos h]

/-- C8 (witness): whitespace-only input while connected, and nonblank
input while executing, are both no-ops. -/
theorem C8_witness :
    executeCommand (⟨"  ", [], false, true, [], -1, "~"⟩ : TermState) =
      ((⟨"  ", [], false, true, [], -1, "~"⟩ : TermState), []) ∧
    executeCommand (⟨"ls", [], true, true, ["x"], -1, "~"⟩ : TermState) =
      ((⟨"ls", [], true, true, ["x"], -1, "~"⟩ : TermState), []) :=
  ⟨C8_submit_noop _ (Or.inl (by decide)),
   C8_submit_noop _ (Or.inr (Or.inl rfl))⟩

/-- C9 (counterexample): Ctrl-C while Executing appends a stderr-kind
line "^C", not an info-kind line as claimed. -/
theorem C9_counterexample :
    (handleKeyDown (⟨"", [], true, true, [], -1, "~"⟩ : TermState) Key.ctrlC).1.output =
      [⟨LineKind.stderr, "^C"⟩] ∧
    (⟨LineKind.stderr, "^C"⟩ : OutputLine) ≠ ⟨LineKind.info, "^C"⟩ := by
  decide

/-- C9 (amended): Ctrl-C while Executing appends a stderr-kind line "^C"
and force-exits Executing locally without sending anything; when not
Executing it clears the input buffer and appends nothing. -/
theorem C9_amended (st : TermState) (he : st.isExecuting = true)
    (st2 : TermState) (hn : st2.isExecuting = false) :
    handleKeyDown st Key.ctrlC =
      ({ st with output := st.output ++ [⟨LineKind.stderr, "^C"⟩], isExecuting := false }, []) ∧
    handleKeyDown st2 Key.ctrlC = ({ st2 with input := "" }, []) := by
  constructor
  · simp [handleKeyDown, he]
  · simp [handleKeyDown, hn]

/-- C9 (witness): the amended interrupt behaviour evaluated on concrete
executing and idle states. -/
theorem C9_witness :
    handleKeyDown (⟨"", [], true, true, [], -1, "~"⟩ : TermState) Key.ctrlC =
      ((⟨"", [⟨LineKind.stderr, "^C"⟩], false, true, [], -1, "~"⟩ : TermState), []) ∧
    handleKeyDown (⟨"abc", [], false, true, [], -1, "~"⟩ : TermState) Key.ctrlC =
      ((⟨"", [], false, true, [], -1, "~"⟩ : TermState), []) :=
  C9_amended ⟨"", [], true, true, [], -1, "~"⟩ rfl ⟨"abc", [], false, true, [], -1, "~"⟩ rfl

/-- C10: Ctrl-C while Executing sends no frame of any kind over the
transport — the interrupt branch only mutates local state and exits
Executing; more generally every key except Enter sends nothing. -/
theorem C10_interrupt_sends_nothing (st : TermState) (he : st.isExecuting = true) :
    (handleKeyDown st Key.ctrlC).2 = [] ∧
    (handleKeyDown st Key.ctrlC).1.isExecuting = false ∧
    (∀ k : Key, k ≠ Key.enter → (handleKeyDown st k).2 = []) := by
  refine ⟨by simp [handleKeyDown, he], by simp [handleKeyDown, he], ?_⟩
  intro k hk
  cases k with
  | enter => exact absurd rfl hk
  | arrowUp =>
    simp only [handleKeyDown]
    split <;> rfl
  | arrowDown =>
    simp only [handleKeyDown]
    split
    · rfl
    · split <;> rfl
  | ctrlC =>
    simp only [handleKeyDown]
    split <;> rfl
  | ctrlL => rfl
  | other => rfl

/-- C5 (counterexample): the prompt "~/sub" is reachable (cd sub from ~),
and submitting cd .. there yields "/~", which is not the result of
popping one path segment from "~/sub" (that would be "~"). -/
theorem C5_counterexample :
    updateDir "~" "sub" = "~/sub" ∧
    updateDir "~/sub" ".." = "/~" ∧
    specPop "~/sub" = "~" ∧
    ("/~" : String) ≠ "~" := by
  decide

/-- C5 (amended): for a submitted command starting with cd, the prompt is
updated by updateDir on the trimmed argument; "~" or "$HOME" resets to
"~"; an absolute path replaces the symbol; ".." behaves as the claimed
segment pop on absolute symbols and on "~" itself (on "~/…" symbols the
code instead re-renders the remaining segments with a leading slash);
any other relative argument is appended with a slash; and the concrete
scenarios cd /tmp, cd sub, cd .. giving /tmp and cd ~ giving ~ hold. -/
theorem C5_amended (st : TermState) (hconn : st.isConnected = true)
    (hnexec : st.isExecuting = false)
    (hcd : jsStartsWith (jsTrim st.input) "cd " = true)
    (prev pdir rel ppop : String)
    (habs : jsStartsWith pdir "/" = true)
    (h1 : rel ≠ "~") (h2 : rel ≠ "$HOME")
    (h3 : jsStartsWith rel "/" = false) (h4 : rel ≠ "..")
    (hpop : jsStartsWith ppop "/" = true ∨ ppop = "~") :
    updateDir prev "~" = "~" ∧
    updateDir prev "$HOME" = "~" ∧
    updateDir prev pdir = pdir ∧
    updateDir ppop ".." = specPop ppop ∧
    updateDir prev rel = (if prev = "~" then "~/" ++ rel else prev ++ "/" ++ rel) ∧
    (executeCommand st).1.currentDir =
      updateDir st.currentDir (jsTrim (jsDrop (jsTrim st.input) 3)) ∧
    updateDir (updateDir (updateDir "~" "/tmp") "sub") ".." = "/tmp" ∧
    updateDir "/tmp" "~" = "~" := by
  have c1 : pdir ≠ "~" := by rintro rfl; exact absurd habs (by decide)
  have c2 : pdir ≠ "$HOME" := by rintro rfl; exact absurd habs (by decide)
  refine ⟨by simp [updateDir], by simp [updateDir], by simp [updateDir, c1, c2, habs],
    ?_, ?_, ?_, by decide, by decide⟩
  · rcases hpop with h | rfl
    · simp only [updateDir, specPop, if_true]
      cases hsegs : (segments ppop).dropLast with
      | nil => simp [hsegs, show jsStartsWith ".." "/" = false from by decide]
      | cons x l => simp [hsegs, h, show jsStartsWith ".." "/" = false from by decide]
    · decide
  · have e1 : ¬(rel = "~" ∨ rel = "$HOME") := by simp [h1, h2]
    have e2 : ¬(jsStartsWith rel "/" = true) := by simp [h3]
    simp only [updateDir, if_neg e1, if_neg e2, if_neg h4]
  · have hne := startsWith_cd_ne_empty _ hcd
    have hcc := startsWith_cd_ne_clear _ hcd
    have hguard : ¬ (jsTrim st.input = "" ∨ st.isExecuting = true ∨ st.isConnected = false) := by
      simp [hne, hnexec, hconn]
    have hor : ¬ (jsTrim st.input = "clear" ∨ jsTrim st.input = "cls") := by
      simp [hcc.1, hcc.2]
    simp [executeCommand, if_neg hguard, if_neg hor, if_pos hcd]

/-- C5 (witness): the amended prompt rules evaluated at concrete symbols
and a concrete submission of cd /tmp. -/
theorem C5_witness :
    updateDir "/home" "~" = "~" ∧
    updateDir "/home" "$HOME" = "~" ∧
    updateDir "/home" "/tmp" = "/tmp" ∧
    updateDir "/a/b" ".." = specPop "/a/b" ∧
    updateDir "/home" "docs" =
      (if ("/home" : String) = "~" then "~/" ++ "docs" else "/home" ++ "/" ++ "docs") ∧
    (executeCommand (⟨"cd /tmp", [], false, true, [], -1, "~"⟩ : TermState)).1.currentDir =
      updateDir "~" (jsTrim (jsDrop (jsTrim "cd /tmp") 3)) ∧
    updateDir (updateDir (updateDir "~" "/tmp") "sub") ".." = "/tmp" ∧
    updateDir "/tmp" "~" = "~" :=
  C5_amended ⟨"cd /tmp", [], false, true, [], -1, "~"⟩ rfl rfl (by decide)
    "/home" "/tmp" "docs" "/a/b" (by decide) (by decide) (by decide) (by decide) (by decide)
    (Or.inl (by decide))

/-- C6: after a successful submission the history equals the previous
history with every occurrence of the submitted command removed and one
copy appended: the command occurs exactly once, as the most recent
entry, and the other entries keep their relative order. -/
theorem C6_history_dedup (st : TermState) (hconn : st.isConnected = true)
    (hnexec : st.isExecuting = false) (hne : jsTrim st.input ≠ "") :
    (executeCommand st).1.history =
      st.history.filter (· ≠ jsTrim st.input) ++ [jsTrim st.input] ∧
    ((executeCommand st).1.history).count (jsTrim st.input) = 1 ∧
    ((executeCommand st).1.history).getLast? = some (jsTrim st.input) ∧
    ((executeCommand st).1.history).filter (· ≠ jsTrim st.input) =
      st.history.filter (· ≠ jsTrim st.input) := by
  have hguard : ¬ (jsTrim st.input = "" ∨ st.isExecuting = true ∨ st.isConnected = false) := by
    simp [hne, hnexec, hconn]
  have hh : (executeCommand st).1.history =
      st.history.filter (· ≠ jsTrim st.input) ++ [jsTrim st.input] := by
    simp only [executeCommand, if_neg hguard]
    split
    · rfl
    · split <;> rfl
  refine ⟨hh, ?_, ?_, ?_⟩
  · rw [hh, List.count_append, count_filter_ne_self]
    simp
  · rw [hh]
    exact List.getLast?_concat _
  · rw [hh]
    exact filter_ne_append_self _ _

/-- C6 (witness): resubmitting a command already in the history leaves
exactly one occurrence, as the most recent entry, with the other entry
untouched. -/
theorem C6_witness :
    (executeCommand (⟨"echo hi", [], false, true, ["echo hi", "ls"], -1, "~"⟩ :
        TermState)).1.history =
      (["echo hi", "ls"].filter (· ≠ jsTrim "echo hi") ++ [jsTrim "echo hi"]) ∧
    ((executeCommand (⟨"echo hi", [], false, true, ["echo hi", "ls"], -1, "~"⟩ :
        TermState)).1.history).count (jsTrim "echo hi") = 1 ∧
    ((executeCommand (⟨"echo hi", [], false, true, ["echo hi", "ls"], -1, "~"⟩ :
        TermState)).1.history).getLast? = some (jsTrim "echo hi") ∧
    ((executeCommand (⟨"echo hi", [], false, true, ["echo hi", "ls"], -1, "~"⟩ :
        TermState)).1.history).filter (· ≠ jsTrim "echo hi") =
      ["echo hi", "ls"].filter (· ≠ jsTrim "echo hi") :=
  C6_history_dedup ⟨"echo hi", [], false, true, ["echo hi", "ls"], -1, "~"⟩ rfl rfl (by decide)

/-- C7: with history [a, b, c], repeated Up from not-browsing yields c,
then b, then a, then stays at a (no wrap); repeated Down from a yields
b, then c, then empty input and not-browsing; in general Up at the
oldest entry keeps the cursor and shows the oldest entry, and Down at
cursor 0 resets to not-browsing with empty input. -/
theorem C7_history_navigation (a b c : String) (st : TermState)
    (h1 : st.history ≠ []) (h2 : st.historyIndex = (st.history.length : Int) - 1)
    (st2 : TermState) (h3 : st2.historyIndex = 0) :
    (navUp (⟨"", [], false, true, [a, b, c], -1, "~"⟩ : TermState)).input = c ∧
    (navUp (⟨"", [], false, true, [a, b, c], -1, "~"⟩ : TermState)).historyIndex = 0 ∧
    (navUp (navUp (⟨"", [], false, true, [a, b, c], -1, "~"⟩ : TermState))).input = b ∧
    (navUp (navUp (navUp (⟨"", [], false, true, [a, b, c], -1, "~"⟩ :
      TermState)))).input = a ∧
    (navUp (navUp (navUp (navUp (⟨"", [], false, true, [a, b, c], -1, "~"⟩ :
      TermState))))).input = a ∧
    (navUp (navUp (navUp (navUp (⟨"", [], false, true, [a, b, c], -1, "~"⟩ :
      TermState))))).historyIndex = 2 ∧
    (navDown (navUp (navUp (navUp (⟨"", [], false, true, [a, b, c], -1, "~"⟩ :
      TermState))))).input = b ∧
    (navDown (navDown (navUp (navUp (navUp (⟨"", [], false, true, [a, b, c], -1, "~"⟩ :
      TermState)))))).input = c ∧
    (navDown (navDown (navDown (navUp (navUp (navUp (⟨"", [], false, true, [a, b, c], -1, "~"⟩ :
      TermState))))))).input = "" ∧
    (navDown (navDown (navDown (navUp (navUp (navUp (⟨"", [], false, true, [a, b, c], -1, "~"⟩ :
      TermState))))))).historyIndex = -1 ∧
    (navUp st).historyIndex = st.historyIndex ∧
    (navUp st).input = st.history.getD 0 "" ∧
    navDown st2 = { st2 with historyIndex := -1, input := "" } := by
  have hlen : 0 < st.history.length := List.length_pos.mpr h1
  refine ⟨rfl, rfl, rfl, rfl, rfl, rfl, rfl, rfl, rfl, rfl, ?_, ?_, ?_⟩
  · unfold navUp
    simp only [handleKeyDown]
    rw [if_pos hlen, h2]
    simp
  · unfold navUp
    simp only [handleKeyDown]
    rw [if_pos hlen, h2]
    simp [histGet]
  · simp [navDown, handleKeyDown, h3]

/-- C7 (witness): the navigation scenario evaluated on a concrete
history, plus the no-wrap and reset-to-not-browsing behaviours on
concrete states at the boundary cursors. -/
theorem C7_witness :
    (navUp (⟨"", [], false, true, ["a", "b", "c"], -1, "~"⟩ : TermState)).input = "c" ∧
    (navUp (⟨"", [], false, true, ["x", "y"], 1, "~"⟩ : TermState)).historyIndex = 1 ∧
    (navUp (⟨"", [], false, true, ["x", "y"], 1, "~"⟩ : TermState)).input =
      (["x", "y"].getD 0 "") ∧
    navDown (⟨"", [], false, true, ["x"], 0, "~"⟩ : TermState) =
      (⟨"", [], false, true, ["x"], -1, "~"⟩ : TermState) := by
  have h := C7_history_navigation "a" "b" "c"
    ⟨"", [], false, true, ["x", "y"], 1, "~"⟩ (by decide) (by decide)
    ⟨"", [], false, true, ["x"], 0, "~"⟩ rfl
  exact ⟨h.1, h.2.2.2.2.2.2.2.2.2.2.1, h.2.2.2.2.2.2.2.2.2.2.2.1, h.2.2.2.2.2.2.2.2.2.2.2.2⟩

/-- C10 (witness): the interrupt path evaluated on a concrete executing
state sends nothing and exits Executing. -/
theorem C10_witness :
    (handleKeyDown (⟨"", [], true, true, [], -1, "~"⟩ : TermState) Key.ctrlC).2 = [] ∧
    (handleKeyDown (⟨"", [], true, true, [], -1, "~"⟩ : TermState) Key.ctrlC).1.isExecuting =
      false :=
  ⟨(C10_interrupt_sends_nothing ⟨"", [], true, true, [], -1, "~"⟩ rfl).1,
   (C10_interrupt_sends_nothing ⟨"", [], true, true, [], -1, "~"⟩ rfl).2.1⟩

end SandboxUI
